import Mathlib

/-!
Shallow embedding of `fetcher/fetcher_github.go` from glaslos/overseer.

The Go file defines a `Github` fetcher with two strategies:
release mode (`fetchLatestRelease`) and build-artifact mode
(`fetchLatestArtifact`), selected by the `Artifact` flag, plus `Init`
(config validation/defaults) and `Fetch` (rate-limited dispatch).

Modelling conventions:
  * byte streams (`io.Reader` bodies) are `List Nat`;
  * Go's `(io.Reader, error)` return pair is `Option (List Nat) × Option String`
    (`(some body, none)` = delivery, `(none, none)` = neutral nil/nil,
    `(none, some msg)` = error with message `msg`);
  * `time.Time` and `time.Duration` are `Int` (nanoseconds; `time.Minute`
    is `60 * 10^9`), `int64` ids are `Int`;
  * every remote capability of the go-github client and of `http.Client`
    is an oracle field of an environment record, so that a `Fetch` run is
    a pure function of (environment, receiver state);
  * the nilable `Match func(string) bool` field is a total function
    `matchFn` plus a `matchNil` flag recording whether the user left it
    nil (Go nil-function + Init substitution);
  * the nilable `Context` field is a `hasContext` flag; `httpClient` and
    `githubClient` construction is outside the model (no claim touches it).
-/

set_option autoImplicit false

namespace Fetcher

/-- `strings.Contains`: `listStartsWith xs pat` is true when `pat` is an
initial segment of `xs`. -/
def listStartsWith : List Char → List Char → Bool
  | _, [] => true
  | [], _ :: _ => false
  | x :: xs, y :: ys => x = y && listStartsWith xs ys

/-- `listContainsSub xs pat` is true when `pat` occurs contiguously in `xs`. -/
def listContainsSub : List Char → List Char → Bool
  | [], pat => pat.isEmpty
  | x :: xs, pat => listStartsWith (x :: xs) pat || listContainsSub xs pat

/-- Go `strings.Contains s sub`. -/
def strContains (s sub : String) : Bool :=
  listContainsSub s.toList sub.toList

/-- `time.Minute` in nanoseconds. -/
def minuteNs : Int := 60000000000

/-- A release asset: `asset.GetName()`, `asset.UpdatedAt.Time`, `asset.GetID()`. -/
structure Asset where
  name : String
  updatedAt : Int
  id : Int
deriving DecidableEq, Repr

/-- `release.Assets` is all the release strategy reads from a release. -/
structure Release where
  assets : List Asset
deriving DecidableEq, Repr

/-- A workflow run: only `run.GetID()` is consumed. -/
structure WorkflowRun where
  id : Int
deriving DecidableEq, Repr

/-- A workflow-run artifact: `artifact.GetName()`, `artifact.GetID()`. -/
structure Artifact where
  name : String
  id : Int
deriving DecidableEq, Repr

/-- The `ListWorkflowRunsOptions` fields set at the call site:
`Branch`, `Status`, `ListOptions.PerPage`. -/
structure RunQuery where
  branch : String
  status : String
  perPage : Nat
deriving DecidableEq, Repr

/-- The Go `(io.Reader, error)` pair: reader component and error component. -/
abbrev FetchResult := Option (List Nat) × Option String

/-- The `Github` struct: configuration plus internal mutable state. -/
structure Github where
  user : String
  repo : String
  token : String
  interval : Int
  matchFn : String → Bool
  matchNil : Bool
  hasContext : Bool
  artifact : Bool
  delay : Bool
  latestRelease : Int
  latestRun : Int

/-- `defaultAsset`: filename contains both `runtime.GOOS` and `runtime.GOARCH`
(the runtime constants are parameters of the model). -/
def defaultAsset (goos goarch : String) (filename : String) : Bool :=
  strContains filename goos && strContains filename goarch

/-- `Init` validates the provided config and applies defaults
(`fetcher_github.go` lines 44-67).  Client construction (lines 64-65) has
no observable effect in the model. -/
def Github.Init (goos goarch : String) (h : Github) : Except String Github :=
  if h.user = "" then .error "user required"
  else if h.repo = "" then .error "repo required"
  else
    let h1 := if h.matchNil then
        { h with matchFn := defaultAsset goos goarch, matchNil := false }
      else h
    let h2 := if h1.interval < minuteNs then { h1 with interval := minuteNs } else h1
    let h3 := if h2.hasContext then h2 else { h2 with hasContext := true }
    .ok h3

/-- Oracle for the remote calls of the release strategy:
`Repositories.GetLatestRelease` yields either a transport error or a
release together with `resp.StatusCode` and `resp.Status`;
`Repositories.DownloadReleaseAsset` takes the asset id. -/
structure ReleaseEnv where
  getLatestRelease : Except String (Release × Nat × String)
  downloadReleaseAsset : Int → Except String (List Nat)

/-- Oracle for the remote calls of the build-artifact strategy:
`Actions.ListRepositoryWorkflowRuns` (applied to the options record built
at the call site), `Actions.ListWorkflowRunArtifacts` by run id,
`Actions.DownloadArtifact` by artifact id and max redirects, returning a
URL, and `http.Client.Get` on a URL returning the response body. -/
structure ArtifactEnv where
  listWorkflowRuns : RunQuery → Except String (List WorkflowRun)
  listRunArtifacts : Int → Except String (List Artifact)
  downloadArtifact : Int → Nat → Except String String
  httpGet : String → Except String (List Nat)

/-- The asset loop of `fetchLatestRelease` (lines 94-107): first asset whose
name matches decides the outcome; cursor (`h.latestRelease`) is threaded
explicitly and returned alongside the result. -/
def releaseLoop (env : ReleaseEnv) (m : String → Bool) (cursor : Int) :
    List Asset → FetchResult × Int
  | [] => ((none, none), cursor)
  | a :: rest =>
    if m a.name then
      if cursor = a.updatedAt then ((none, some "no new release"), cursor)
      else
        match env.downloadReleaseAsset a.id with
        | .error e => ((none, some ("failed to download release asset: " ++ e)), cursor)
        | .ok body => ((some body, none), a.updatedAt)
    else releaseLoop env m cursor rest

/-- `fetchLatestRelease` (lines 84-108). -/
def fetchLatestRelease (env : ReleaseEnv) (m : String → Bool) (cursor : Int) :
    FetchResult × Int :=
  match env.getLatestRelease with
  | .error e => ((none, some ("failed to get last release: " ++ e)), cursor)
  | .ok (release, code, statusText) =>
    if code ≠ 200 then
      ((none, some ("failed to get last release: " ++ statusText)), cursor)
    else releaseLoop env m cursor release.assets

/-- The options literal built at lines 111-117: branch "main",
status "success", one run per page. -/
def artifactQuery : RunQuery :=
  { branch := "main", status := "success", perPage := 1 }

/-- The artifact loop of `fetchLatestArtifact` (lines 136-150): first
artifact whose name matches is downloaded (download-location call with 10
max redirects, then a plain HTTP GET on the returned URL); on success the
cursor becomes the run id and the raw response body is returned. -/
def artifactLoop (env : ArtifactEnv) (m : String → Bool) (cursor runId : Int) :
    List Artifact → FetchResult × Int
  | [] => ((none, none), cursor)
  | a :: rest =>
    if m a.name then
      match env.downloadArtifact a.id 10 with
      | .error e => ((none, some ("failed to download artifact: " ++ e)), cursor)
      | .ok url =>
        match env.httpGet url with
        | .error e => ((none, some ("failed to fetch artifact: " ++ e)), cursor)
        | .ok body => ((some body, none), runId)
    else artifactLoop env m cursor runId rest

/-- `fetchLatestArtifact` (lines 110-151). -/
def fetchLatestArtifact (env : ArtifactEnv) (m : String → Bool) (cursor : Int) :
    FetchResult × Int :=
  match env.listWorkflowRuns artifactQuery with
  | .error e => ((none, some ("failed to get workflow runs: " ++ e)), cursor)
  | .ok runs =>
    match runs with
    | [] => ((none, some "no successful workflow runs"), cursor)
    | run :: _ =>
      if cursor = run.id then ((none, some "no new run"), cursor)
      else
        match env.listRunArtifacts run.id with
        | .error e => ((none, some ("failed to get workflow run artifacts: " ++ e)), cursor)
        | .ok artifacts =>
          if artifacts.isEmpty then ((none, some "no artifacts found"), cursor)
          else artifactLoop env m cursor run.id artifacts

/-- `Fetch` (lines 70-82): sleeps for `Interval` on every call after the
first, sets the delay flag, then dispatches on the `Artifact` flag.  The
first output component is the slept duration (0 when no sleep happened). -/
def Github.Fetch (envR : ReleaseEnv) (envA : ArtifactEnv) (h : Github) :
    (Int × FetchResult) × Github :=
  let slept : Int := if h.delay then h.interval else 0
  let h1 := { h with delay := true }
  if h1.artifact then
    let (r, c) := fetchLatestArtifact envA h1.matchFn h1.latestRun
    ((slept, r), { h1 with latestRun := c })
  else
    let (r, c) := fetchLatestRelease envR h1.matchFn h1.latestRelease
    ((slept, r), { h1 with latestRelease := c })

/-- What `releaseLoop` does to the first matching asset, as a function of
`List.find?`; used to state first-match-wins. -/
def releaseDecide (env : ReleaseEnv) (cursor : Int) : Option Asset → FetchResult × Int
  | none => ((none, none), cursor)
  | some a =>
    if cursor = a.updatedAt then ((none, some "no new release"), cursor)
    else
      match env.downloadReleaseAsset a.id with
      | .error e => ((none, some ("failed to download release asset: " ++ e)), cursor)
      | .ok body => ((some body, none), a.updatedAt)

/-- What `artifactLoop` does to the first matching artifact, as a function
of `List.find?`. -/
def artifactDecide (env : ArtifactEnv) (cursor runId : Int) : Option Artifact → FetchResult × Int
  | none => ((none, none), cursor)
  | some a =>
    match env.downloadArtifact a.id 10 with
    | .error e => ((none, some ("failed to download artifact: " ++ e)), cursor)
    | .ok url =>
      match env.httpGet url with
      | .error e => ((none, some ("failed to fetch artifact: " ++ e)), cursor)
      | .ok body => ((some body, none), runId)

/-- The four caller-observable outcome shapes of a strategy result.  A
result is classified from its two components alone, so two outcomes with
different classifications are distinguishable by the caller. -/
inductive Outcome where
  | delivered (s : List Nat)
  | neutral
  | noNewItem
  | failure
deriving DecidableEq, Repr

/-- Classify a `(reader, error)` pair: a present reader is a delivery,
`(nil, nil)` is the neutral result, and an error is NoNewItem exactly when
its message is one of the two dedup messages of the source. -/
def classify : FetchResult → Outcome
  | (some s, _) => .delivered s
  | (none, none) => .neutral
  | (none, some msg) =>
    if msg = "no new release" then .noNewItem
    else if msg = "no new run" then .noNewItem
    else .failure

/-- The release-mode dedup-hit condition: the listing succeeds with status
200 and the first matching asset's update timestamp equals the cursor. -/
def relDedupHit (env : ReleaseEnv) (m : String → Bool) (c : Int) : Prop :=
  ∃ rel txt a, env.getLatestRelease = Except.ok (rel, 200, txt)
    ∧ rel.assets.find? (fun x => m x.name) = some a ∧ c = a.updatedAt

/-- The artifact-mode dedup-hit condition: the run listing succeeds with a
most-recent run whose id equals the cursor. -/
def artDedupHit (env : ArtifactEnv) (c : Int) : Prop :=
  ∃ run rest, env.listWorkflowRuns artifactQuery = Except.ok (run :: rest) ∧ c = run.id

/-- Modelled from the spec: the build system wraps every artifact body in
a compressed archive, which the fetcher is said to open, returning a
stream over entry zero only.  No archive handling exists in the source
(`fetchLatestArtifact` returns the response body raw), so a stand-in
codec represents valid archives: entry count, then each entry as its
length followed by its bytes. -/
def specArchiveEncode (entries : List (List Nat)) : List Nat :=
  entries.length :: entries.foldr (fun e acc => (e.length :: e) ++ acc) []

/-- Modelled from the spec: the content of entry zero of an archive
produced by `specArchiveEncode` (`none` when the archive has no entry). -/
def specArchiveFirstEntry : List Nat → Option (List Nat)
  | [] => none
  | 0 :: _ => none
  | _ :: [] => none
  | _ :: len :: more => some (more.take len)

/-- The default predicate for a linux/amd64 host, used in concrete runs. -/
def linuxAmd64 (f : String) : Bool :=
  strContains f "linux" && strContains f "amd64"

/-- The asset listing of the first-match-wins example: the checksum file
also matches the predicate but comes later. -/
def exampleAssets : List Asset :=
  [⟨"app_linux_amd64", 5, 1⟩, ⟨"app_darwin_amd64", 6, 2⟩, ⟨"app_linux_amd64.sha256", 7, 3⟩]

/-- Release environment serving `exampleAssets`; asset `i` downloads to
the one-byte body `[i]`. -/
def exampleReleaseEnv : ReleaseEnv :=
  { getLatestRelease := .ok (⟨exampleAssets⟩, 200, "200 OK")
    downloadReleaseAsset := fun i => .ok [i.toNat] }

/-- Artifact body: a valid two-entry archive. -/
def archiveBody : List Nat := specArchiveEncode [[1, 2, 3], [4, 5]]

/-- Artifact body: a valid single-entry archive containing `[1, 2, 3]`. -/
def archiveBody1 : List Nat := specArchiveEncode [[1, 2, 3]]

/-- Artifact environment whose downloaded body is the two-entry archive. -/
def archiveEnv : ArtifactEnv :=
  { listWorkflowRuns := fun _ => .ok [⟨42⟩]
    listRunArtifacts := fun _ => .ok [⟨"tool_linux_amd64", 7⟩]
    downloadArtifact := fun _ _ => .ok "archive-location"
    httpGet := fun _ => .ok archiveBody }

/-- Artifact environment whose downloaded body is the single-entry archive. -/
def archiveEnv1 : ArtifactEnv :=
  { archiveEnv with httpGet := fun _ => .ok archiveBody1 }

/-- Release environment whose latest release has zero assets. -/
def emptyAssetsEnv : ReleaseEnv :=
  { getLatestRelease := .ok (⟨[]⟩, 200, "200 OK")
    downloadReleaseAsset := fun _ => .error "unused" }

/-- Artifact environment with an empty run listing. -/
def emptyRunsEnv : ArtifactEnv :=
  { listWorkflowRuns := fun _ => .ok []
    listRunArtifacts := fun _ => .error "unused"
    downloadArtifact := fun _ _ => .error "unused"
    httpGet := fun _ => .error "unused" }

/-- Artifact environment whose latest run has an empty artifact listing. -/
def emptyArtifactsEnv : ArtifactEnv :=
  { emptyRunsEnv with
    listWorkflowRuns := fun _ => .ok [⟨42⟩]
    listRunArtifacts := fun _ => .ok [] }

/-- Artifact environment delivering body `[9]` for run 42. -/
def runDeliveryEnv : ArtifactEnv :=
  { listWorkflowRuns := fun _ => .ok [⟨42⟩]
    listRunArtifacts := fun _ => .ok [⟨"tool_linux_amd64", 7⟩]
    downloadArtifact := fun _ _ => .ok "loc"
    httpGet := fun _ => .ok [9] }

/-- Release environment where the asset download fails. -/
def downloadFailEnv : ReleaseEnv :=
  { getLatestRelease := .ok (⟨exampleAssets⟩, 200, "200 OK")
    downloadReleaseAsset := fun _ => .error "boom" }

/-- Artifact environment where the redirect fetch fails. -/
def getFailEnv : ArtifactEnv :=
  { runDeliveryEnv with httpGet := fun _ => .error "net down" }

/-- Release environment where no asset name matches `linuxAmd64`. -/
def noMatchAssetsEnv : ReleaseEnv :=
  { getLatestRelease := .ok (⟨[⟨"app_windows_arm64", 5, 1⟩]⟩, 200, "200 OK")
    downloadReleaseAsset := fun _ => .error "unused" }

/-- Artifact environment where no artifact name matches `linuxAmd64`. -/
def noMatchArtifactsEnv : ArtifactEnv :=
  { runDeliveryEnv with listRunArtifacts := fun _ => .ok [⟨"app_windows_arm64", 7⟩] }

/-- Two artifact environments that agree on the hard-coded run query but
disagree on every other branch: listing any branch other than "main"
succeeds emptily in one ... -/
def otherBranchOkEnv : ArtifactEnv :=
  { runDeliveryEnv with
    listWorkflowRuns := fun q => if q.branch = "main" then .ok [⟨5⟩] else .ok [] }

/-- ... and fails in the other. -/
def otherBranchFailEnv : ArtifactEnv :=
  { runDeliveryEnv with
    listWorkflowRuns := fun q => if q.branch = "main" then .ok [⟨5⟩] else .error "no such branch" }

/-- A config missing the user. -/
def cfgNoUser : Github :=
  { user := "", repo := "overseer", token := "", interval := 0
    matchFn := fun _ => false, matchNil := true, hasContext := false
    artifact := false, delay := false, latestRelease := 0, latestRun := 0 }

/-- A config missing the repo. -/
def cfgNoRepo : Github :=
  { cfgNoUser with user := "glaslos", repo := "" }

/-- A fully valid config with every defaultable field left at its zero
value. -/
def cfgOk : Github :=
  { cfgNoUser with user := "glaslos", repo := "overseer" }

/-- A post-Init state in release mode, before the first `Fetch`. -/
def githubW : Github :=
  { user := "glaslos", repo := "overseer", token := "", interval := minuteNs
    matchFn := linuxAmd64, matchNil := false, hasContext := true
    artifact := false, delay := false, latestRelease := 0, latestRun := 0 }


theorem append_ne (p e q : String) (h : q.length < p.length) : p ++ e ≠ q := by
  intro hh
  have h2 := congrArg String.length hh
  rw [String.length_append] at h2
  omega

theorem classify_append (p e : String) (h : 14 < p.length) :
    classify (none, some (p ++ e)) = Outcome.failure := by
  have l1 : ("no new release" : String).length = 14 := rfl
  have l2 : ("no new run" : String).length = 10 := rfl
  have h1 : p ++ e ≠ "no new release" := append_ne p e _ (by rw [l1]; omega)
  have h2 : p ++ e ≠ "no new run" := append_ne p e _ (by rw [l2]; omega)
  simp [classify, h1, h2]

theorem releaseLoop_eq_find (env : ReleaseEnv) (m : String → Bool) (c : Int) (l : List Asset) :
    releaseLoop env m c l = releaseDecide env c (l.find? fun a => m a.name) := by
  induction l with
  | nil => rfl
  | cons a rest ih =>
    by_cases hm : m a.name
    · rw [List.find?_cons_of_pos (p := fun (x : Asset) => m x.name) _ hm]
      simp [releaseLoop, hm, releaseDecide]
    · rw [List.find?_cons_of_neg (p := fun (x : Asset) => m x.name) _ hm]
      simp [releaseLoop, hm, ih]

theorem artifactLoop_eq_find (env : ArtifactEnv) (m : String → Bool) (c runId : Int)
    (l : List Artifact) :
    artifactLoop env m c runId l = artifactDecide env c runId (l.find? fun a => m a.name) := by
  induction l with
  | nil => rfl
  | cons a rest ih =>
    by_cases hm : m a.name
    · rw [List.find?_cons_of_pos (p := fun (x : Artifact) => m x.name) _ hm]
      simp [artifactLoop, hm, artifactDecide]
    · rw [List.find?_cons_of_neg (p := fun (x : Artifact) => m x.name) _ hm]
      simp [artifactLoop, hm, ih]

theorem releaseDecide_err_cursor (env : ReleaseEnv) (c : Int) (oa : Option Asset)
    (h : ((releaseDecide env c oa).1).2.isSome = true) : (releaseDecide env c oa).2 = c := by
  rcases oa with _ | a
  · rfl
  · simp only [releaseDecide]
    split
    · rfl
    · split
      · rfl
      · rename_i body heq
        simp [releaseDecide, *] at h

theorem artifactDecide_err_cursor (env : ArtifactEnv) (c runId : Int) (oa : Option Artifact)
    (h : ((artifactDecide env c runId oa).1).2.isSome = true) :
    (artifactDecide env c runId oa).2 = c := by
  rcases oa with _ | a
  · rfl
  · simp only [artifactDecide]
    split
    · rfl
    · split
      · rfl
      · rename_i body heq
        simp [artifactDecide, *] at h


theorem fetchLatestRelease_err_cursor (env : ReleaseEnv) (m : String → Bool) (c : Int)
    (h : ((fetchLatestRelease env m c).1).2.isSome = true) :
    (fetchLatestRelease env m c).2 = c := by
  cases hg : env.getLatestRelease with
  | error e => simp [fetchLatestRelease, hg]
  | ok trip =>
    obtain ⟨rel, code, txt⟩ := trip
    by_cases hc : code = 200
    · subst hc
      simp only [fetchLatestRelease, hg] at h ⊢
      rw [if_neg (by simp)] at h ⊢
      rw [releaseLoop_eq_find] at h ⊢
      exact releaseDecide_err_cursor env c _ h
    · simp [fetchLatestRelease, hg, hc]

theorem fetchLatestArtifact_err_cursor (env : ArtifactEnv) (m : String → Bool) (c : Int)
    (h : ((fetchLatestArtifact env m c).1).2.isSome = true) :
    (fetchLatestArtifact env m c).2 = c := by
  cases hg : env.listWorkflowRuns artifactQuery with
  | error e => simp [fetchLatestArtifact, hg]
  | ok runs =>
    cases runs with
    | nil => simp [fetchLatestArtifact, hg]
    | cons run rest =>
      by_cases hr : c = run.id
      · simp [fetchLatestArtifact, hg, hr]
      · cases hla : env.listRunArtifacts run.id with
        | error e => simp [fetchLatestArtifact, hg, hr, hla]
        | ok arts =>
          by_cases he : arts.isEmpty
          · simp [fetchLatestArtifact, hg, hr, hla, he]
          · simp only [fetchLatestArtifact, hg] at h ⊢
            rw [if_neg hr] at h ⊢
            simp only [hla] at h ⊢
            rw [if_neg he] at h ⊢
            rw [artifactLoop_eq_find] at h ⊢
            exact artifactDecide_err_cursor env c run.id _ h

/-- C4 counterexample: a release listing that succeeds with status 200 and
zero assets makes `fetchLatestRelease` return the neutral `(nil, nil)`
result with no error, so zero release assets is not a hard failure as the
claim states. -/
theorem c4_counterexample :
    fetchLatestRelease emptyAssetsEnv linuxAmd64 0 = ((none, none), 0) := rfl

/-- C4 amended: in build-artifact mode an empty run list and an empty
artifact list each surface as a hard error, distinct from the neutral
no-match result; in release mode zero assets falls through the asset loop
and yields the neutral no-match result, not a hard failure. -/
theorem c4_zero_results :
    (∀ (env : ArtifactEnv) (m : String → Bool) (c : Int),
      env.listWorkflowRuns artifactQuery = Except.ok [] →
      fetchLatestArtifact env m c = ((none, some "no successful workflow runs"), c))
    ∧ (∀ (env : ArtifactEnv) (m : String → Bool) (c : Int) (run : WorkflowRun)
        (rest : List WorkflowRun),
      env.listWorkflowRuns artifactQuery = Except.ok (run :: rest) →
      c ≠ run.id →
      env.listRunArtifacts run.id = Except.ok [] →
      fetchLatestArtifact env m c = ((none, some "no artifacts found"), c))
    ∧ (∀ (env : ReleaseEnv) (m : String → Bool) (c : Int) (txt : String),
      env.getLatestRelease = Except.ok (⟨[]⟩, 200, txt) →
      fetchLatestRelease env m c = ((none, none), c)) := by
  refine ⟨?_, ?_, ?_⟩
  · intro env m c hg
    simp [fetchLatestArtifact, hg]
  · intro env m c run rest hg hne hla
    simp only [fetchLatestArtifact, hg]
    rw [if_neg hne]
    simp [hla]
  · intro env m c txt hg
    simp only [fetchLatestRelease, hg]
    rw [if_neg (by simp)]
    rfl

/-- C4 witness: the amended claim at concrete environments with an empty
run list, an empty artifact list and an empty asset list. -/
theorem c4_zero_results_witness :
    fetchLatestArtifact emptyRunsEnv linuxAmd64 0 = ((none, some "no successful workflow runs"), 0)
    ∧ fetchLatestArtifact emptyArtifactsEnv linuxAmd64 0 = ((none, some "no artifacts found"), 0)
    ∧ fetchLatestRelease emptyAssetsEnv linuxAmd64 3 = ((none, none), 3) :=
  ⟨c4_zero_results.1 emptyRunsEnv linuxAmd64 0 rfl,
   c4_zero_results.2.1 emptyArtifactsEnv linuxAmd64 0 ⟨42⟩ [] rfl (by decide) rfl,
   c4_zero_results.2.2 emptyAssetsEnv linuxAmd64 3 "200 OK" rfl⟩

/-- C6: atomicity on failure.  Whenever either strategy, or the top-level
`Fetch`, returns with a non-nil error, the dedup cursor (`latestRelease`
and `latestRun`) is left unchanged, so the next cycle retries the same
item. -/
theorem c6_error_preserves_cursor :
    (∀ (env : ReleaseEnv) (m : String → Bool) (c : Int),
      ((fetchLatestRelease env m c).1).2.isSome = true → (fetchLatestRelease env m c).2 = c)
    ∧ (∀ (env : ArtifactEnv) (m : String → Bool) (c : Int),
      ((fetchLatestArtifact env m c).1).2.isSome = true → (fetchLatestArtifact env m c).2 = c)
    ∧ (∀ (envR : ReleaseEnv) (envA : ArtifactEnv) (h : Github),
      ((Github.Fetch envR envA h).1.2).2.isSome = true →
      (Github.Fetch envR envA h).2.latestRelease = h.latestRelease
        ∧ (Github.Fetch envR envA h).2.latestRun = h.latestRun) := by
  refine ⟨fetchLatestRelease_err_cursor, fetchLatestArtifact_err_cursor, ?_⟩
  intro envR envA h
  by_cases ha : h.artifact
  · rcases hfa : fetchLatestArtifact envA h.matchFn h.latestRun with ⟨r, c2⟩
    intro hs
    have hc2 : c2 = h.latestRun := by
      have hc := fetchLatestArtifact_err_cursor envA h.matchFn h.latestRun
      rw [hfa] at hc
      have hs' : r.2.isSome = true := by
        simpa [Github.Fetch, ha, hfa] using hs
      simpa using hc hs'
    constructor
    · simp [Github.Fetch, ha, hfa]
    · simp [Github.Fetch, ha, hfa, hc2]
  · rcases hfr : fetchLatestRelease envR h.matchFn h.latestRelease with ⟨r, c2⟩
    intro hs
    have hc2 : c2 = h.latestRelease := by
      have hc := fetchLatestRelease_err_cursor envR h.matchFn h.latestRelease
      rw [hfr] at hc
      have hs' : r.2.isSome = true := by
        simpa [Github.Fetch, ha, hfr] using hs
      simpa using hc hs'
    constructor
    · simp [Github.Fetch, ha, hfr, hc2]
    · simp [Github.Fetch, ha, hfr]

/-- C6 witness: a failed asset download and a failed redirect fetch both
leave the cursor at its previous value. -/
theorem c6_error_preserves_cursor_witness :
    (fetchLatestRelease downloadFailEnv linuxAmd64 0).2 = 0
    ∧ (fetchLatestArtifact getFailEnv linuxAmd64 0).2 = 0 :=
  ⟨c6_error_preserves_cursor.1 downloadFailEnv linuxAmd64 0 (by decide),
   c6_error_preserves_cursor.2.1 getFailEnv linuxAmd64 0 (by decide)⟩

/-- C7: no-match neutral path.  In release mode, when the listing succeeds
with at least one asset and no asset name satisfies the predicate, the
result is the neutral `(nil, nil)` with an unchanged cursor; likewise in
build-artifact mode once the run listing succeeds with a run not equal to
the cursor (before that point the artifacts are never consulted) and no
artifact name matches. -/
theorem c7_no_match_neutral :
    (∀ (env : ReleaseEnv) (m : String → Bool) (c : Int) (rel : Release) (txt : String),
      env.getLatestRelease = Except.ok (rel, 200, txt) →
      rel.assets ≠ [] →
      rel.assets.find? (fun x => m x.name) = none →
      fetchLatestRelease env m c = ((none, none), c))
    ∧ (∀ (env : ArtifactEnv) (m : String → Bool) (c : Int) (run : WorkflowRun)
        (rest : List WorkflowRun) (arts : List Artifact),
      env.listWorkflowRuns artifactQuery = Except.ok (run :: rest) →
      c ≠ run.id →
      env.listRunArtifacts run.id = Except.ok arts →
      arts ≠ [] →
      arts.find? (fun x => m x.name) = none →
      fetchLatestArtifact env m c = ((none, none), c)) := by
  refine ⟨?_, ?_⟩
  · intro env m c rel txt hg _ hf
    simp only [fetchLatestRelease, hg]
    rw [if_neg (by simp)]
    rw [releaseLoop_eq_find, hf]
    rfl
  · intro env m c run rest arts hg hne hla harts hf
    simp only [fetchLatestArtifact, hg]
    rw [if_neg hne]
    simp only [hla]
    rw [if_neg (by simp [harts])]
    rw [artifactLoop_eq_find, hf]
    rfl

/-- C7 witness: concrete listings whose only candidate does not match the
`linuxAmd64` predicate, in both modes. -/
theorem c7_no_match_neutral_witness :
    fetchLatestRelease noMatchAssetsEnv linuxAmd64 0 = ((none, none), 0)
    ∧ fetchLatestArtifact noMatchArtifactsEnv linuxAmd64 0 = ((none, none), 0) :=
  ⟨c7_no_match_neutral.1 noMatchAssetsEnv linuxAmd64 0 ⟨[⟨"app_windows_arm64", 5, 1⟩]⟩ "200 OK"
      rfl (by decide) (by decide),
   c7_no_match_neutral.2 noMatchArtifactsEnv linuxAmd64 0 ⟨42⟩ [] [⟨"app_windows_arm64", 7⟩]
      rfl (by decide) rfl (by decide) (by decide)⟩

/-- C2: first-match-wins.  In both strategies the selected candidate is the first element in
listing order whose filename satisfies the predicate (`List.find?`), later
matches are never considered, and on the spec's example listing the
selected asset is `app_linux_amd64`, not the also-matching checksum file. -/
theorem c2_first_match_wins :
    (∀ (env : ReleaseEnv) (m : String → Bool) (c : Int) (l : List Asset),
      releaseLoop env m c l = releaseDecide env c (l.find? fun a => m a.name))
    ∧ (∀ (env : ArtifactEnv) (m : String → Bool) (c runId : Int) (l : List Artifact),
      artifactLoop env m c runId l = artifactDecide env c runId (l.find? fun a => m a.name))
    ∧ exampleAssets.find? (fun a => linuxAmd64 a.name) = some ⟨"app_linux_amd64", 5, 1⟩
    ∧ fetchLatestRelease exampleReleaseEnv linuxAmd64 0 = ((some [1], none), 5) :=
  ⟨releaseLoop_eq_find, artifactLoop_eq_find, by decide, by decide⟩

/-- C3: after a delivery the cursor equals the delivered identity; while
the selected candidate's identity equals the cursor, every further call
returns the dedup error and the cursor is a fixed point of arbitrarily
many iterated calls; a candidate with any different identity (equality is
exact, so also an older one) is delivered and moves the cursor to it. -/
theorem c3_monotonic_dedup :
    (∀ (env : ReleaseEnv) (m : String → Bool) (c : Int) (rel : Release) (txt : String)
        (a : Asset) (body : List Nat),
      env.getLatestRelease = Except.ok (rel, 200, txt) →
      rel.assets.find? (fun x => m x.name) = some a →
      env.downloadReleaseAsset a.id = Except.ok body →
      c ≠ a.updatedAt →
      fetchLatestRelease env m c = ((some body, none), a.updatedAt))
    ∧ (∀ (env : ReleaseEnv) (m : String → Bool) (c : Int) (rel : Release) (txt : String)
        (a : Asset),
      env.getLatestRelease = Except.ok (rel, 200, txt) →
      rel.assets.find? (fun x => m x.name) = some a →
      c = a.updatedAt →
      ∀ n : Nat,
        (fun st => (fetchLatestRelease env m st).2)^[n] c = c
        ∧ fetchLatestRelease env m c = ((none, some "no new release"), c))
    ∧ (∀ (env : ArtifactEnv) (m : String → Bool) (c : Int) (run : WorkflowRun)
        (rest : List WorkflowRun) (arts : List Artifact) (a : Artifact) (url : String)
        (body : List Nat),
      env.listWorkflowRuns artifactQuery = Except.ok (run :: rest) →
      c ≠ run.id →
      env.listRunArtifacts run.id = Except.ok arts →
      arts.find? (fun x => m x.name) = some a →
      env.downloadArtifact a.id 10 = Except.ok url →
      env.httpGet url = Except.ok body →
      fetchLatestArtifact env m c = ((some body, none), run.id))
    ∧ (∀ (env : ArtifactEnv) (m : String → Bool) (c : Int) (run : WorkflowRun)
        (rest : List WorkflowRun),
      env.listWorkflowRuns artifactQuery = Except.ok (run :: rest) →
      c = run.id →
      ∀ n : Nat,
        (fun st => (fetchLatestArtifact env m st).2)^[n] c = c
        ∧ fetchLatestArtifact env m c = ((none, some "no new run"), c)) := by
  refine ⟨?_, ?_, ?_, ?_⟩
  · intro env m c rel txt a body hg hf hd hne
    simp only [fetchLatestRelease, hg]
    rw [if_neg (by simp)]
    rw [releaseLoop_eq_find, hf]
    simp [releaseDecide, hd, hne]
  · intro env m c rel txt a hg hf heq
    have hstep : fetchLatestRelease env m c = ((none, some "no new release"), c) := by
      simp only [fetchLatestRelease, hg]
      rw [if_neg (by simp)]
      rw [releaseLoop_eq_find, hf]
      simp [releaseDecide, heq]
    intro n
    refine ⟨?_, hstep⟩
    induction n with
    | zero => rfl
    | succ k ih =>
      rw [Function.iterate_succ_apply', ih, hstep]
  · intro env m c run rest arts a url body hg hne hla hf hdl hget
    have hne' : arts ≠ [] := by
      intro h
      subst h
      simp at hf
    simp only [fetchLatestArtifact, hg]
    rw [if_neg hne]
    simp only [hla]
    rw [if_neg (by simp [hne'])]
    rw [artifactLoop_eq_find, hf]
    simp [artifactDecide, hdl, hget]
  · intro env m c run rest hg heq
    have hstep : fetchLatestArtifact env m c = ((none, some "no new run"), c) := by
      simp only [fetchLatestArtifact, hg]
      rw [if_pos heq]
    intro n
    refine ⟨?_, hstep⟩
    induction n with
    | zero => rfl
    | succ k ih =>
      rw [Function.iterate_succ_apply', ih, hstep]

/-- C3 witness: a concrete delivery at a moved-backward cursor, a dedup
hit, and the artifact-mode counterparts. -/
theorem c3_monotonic_dedup_witness :
    fetchLatestRelease exampleReleaseEnv linuxAmd64 9 = ((some [1], none), 5)
    ∧ fetchLatestRelease exampleReleaseEnv linuxAmd64 5 = ((none, some "no new release"), 5)
    ∧ fetchLatestArtifact runDeliveryEnv linuxAmd64 0 = ((some [9], none), 42)
    ∧ fetchLatestArtifact runDeliveryEnv linuxAmd64 42 = ((none, some "no new run"), 42) :=
  ⟨c3_monotonic_dedup.1 exampleReleaseEnv linuxAmd64 9 ⟨exampleAssets⟩ "200 OK"
      ⟨"app_linux_amd64", 5, 1⟩ [1] rfl (by decide) rfl (by decide),
   (c3_monotonic_dedup.2.1 exampleReleaseEnv linuxAmd64 5 ⟨exampleAssets⟩ "200 OK"
      ⟨"app_linux_amd64", 5, 1⟩ rfl (by decide) rfl 0).2,
   c3_monotonic_dedup.2.2.1 runDeliveryEnv linuxAmd64 0 ⟨42⟩ [] [⟨"tool_linux_amd64", 7⟩]
      ⟨"tool_linux_amd64", 7⟩ "loc" [9] rfl (by decide) rfl (by decide) rfl rfl,
   (c3_monotonic_dedup.2.2.2 runDeliveryEnv linuxAmd64 42 ⟨42⟩ [] rfl rfl 0).2⟩


/-- C1: evaluation of the code at the failing input.  The downloaded
artifact body is a valid archive (single-entry containing `[1, 2, 3]`, and
two-entry), yet `fetchLatestArtifact` returns the raw archive bytes
unchanged - not the first entry's content as the claim (and the spec's
archive-unwrap step) requires; the model archive codec confirms entry
zero is `[1, 2, 3]` and differs from the returned stream. -/
theorem c1_artifact_body_returned_raw :
    fetchLatestArtifact archiveEnv1 linuxAmd64 0 = ((some archiveBody1, none), 42)
    ∧ specArchiveFirstEntry archiveBody1 = some [1, 2, 3]
    ∧ archiveBody1 ≠ [1, 2, 3]
    ∧ fetchLatestArtifact archiveEnv linuxAmd64 0 = ((some archiveBody, none), 42)
    ∧ specArchiveFirstEntry archiveBody = some [1, 2, 3]
    ∧ archiveBody ≠ [1, 2, 3] :=
  ⟨rfl, rfl, by decide, rfl, rfl, by decide⟩

theorem artifactLoop_congr (env env2 : ArtifactEnv) (m : String → Bool) (c runId : Int)
    (l : List Artifact)
    (h3 : env.downloadArtifact = env2.downloadArtifact)
    (h4 : env.httpGet = env2.httpGet) :
    artifactLoop env m c runId l = artifactLoop env2 m c runId l := by
  induction l with
  | nil => rfl
  | cons a rest ih =>
    by_cases hm : m a.name
    · simp [artifactLoop, hm, h3, h4]
    · simp [artifactLoop, hm, ih]

theorem fetchLatestArtifact_congr (env env2 : ArtifactEnv) (m : String → Bool) (c : Int)
    (h1 : env.listWorkflowRuns artifactQuery = env2.listWorkflowRuns artifactQuery)
    (h2 : env.listRunArtifacts = env2.listRunArtifacts)
    (h3 : env.downloadArtifact = env2.downloadArtifact)
    (h4 : env.httpGet = env2.httpGet) :
    fetchLatestArtifact env m c = fetchLatestArtifact env2 m c := by
  simp only [fetchLatestArtifact, h1, h2]
  cases hw : env2.listWorkflowRuns artifactQuery with
  | error e => rfl
  | ok runs =>
    cases runs with
    | nil => rfl
    | cons run rest =>
      by_cases hr : c = run.id
      · simp [hr]
      · simp only [if_neg hr]
        cases hla : env2.listRunArtifacts run.id with
        | error e => rfl
        | ok arts =>
          by_cases he : arts.isEmpty
          · simp [he]
          · simp only [if_neg he]
            exact artifactLoop_congr env env2 m c run.id arts h3 h4

/-- C10: the build-artifact run query is hard-coded.  The options record
passed to the run-listing call is exactly branch "main", status "success",
one run per page, and `fetchLatestArtifact` (hence `Fetch` in artifact
mode) consults the run-listing oracle at no other query: two environments
agreeing at `artifactQuery` (and on the other capabilities) are
indistinguishable, whatever the configuration. -/
theorem c10_hardcoded_run_query :
    artifactQuery = { branch := "main", status := "success", perPage := 1 }
    ∧ (∀ (env env2 : ArtifactEnv) (m : String → Bool) (c : Int),
      env.listWorkflowRuns artifactQuery = env2.listWorkflowRuns artifactQuery →
      env.listRunArtifacts = env2.listRunArtifacts →
      env.downloadArtifact = env2.downloadArtifact →
      env.httpGet = env2.httpGet →
      fetchLatestArtifact env m c = fetchLatestArtifact env2 m c)
    ∧ (∀ (envR : ReleaseEnv) (env env2 : ArtifactEnv) (h : Github),
      h.artifact = true →
      env.listWorkflowRuns artifactQuery = env2.listWorkflowRuns artifactQuery →
      env.listRunArtifacts = env2.listRunArtifacts →
      env.downloadArtifact = env2.downloadArtifact →
      env.httpGet = env2.httpGet →
      Github.Fetch envR env h = Github.Fetch envR env2 h) := by
  refine ⟨rfl, fetchLatestArtifact_congr, ?_⟩
  intro envR env env2 h ha h1 h2 h3 h4
  have hcong := fetchLatestArtifact_congr env env2 h.matchFn h.latestRun h1 h2 h3 h4
  simp [Github.Fetch, ha, hcong]

/-- C10 witness: two environments that answer every non-"main" branch
query differently (one succeeds, one fails) still produce identical
fetches. -/
theorem c10_hardcoded_run_query_witness :
    fetchLatestArtifact otherBranchOkEnv linuxAmd64 0
        = fetchLatestArtifact otherBranchFailEnv linuxAmd64 0
    ∧ (otherBranchOkEnv.listWorkflowRuns { branch := "dev", status := "success", perPage := 1 }).isOk
        = true
    ∧ (otherBranchFailEnv.listWorkflowRuns { branch := "dev", status := "success", perPage := 1 }).isOk
        = false :=
  ⟨c10_hardcoded_run_query.2.1 otherBranchOkEnv otherBranchFailEnv linuxAmd64 0
      rfl rfl rfl rfl,
   rfl, rfl⟩

/-- C9: rate limiting.  The first `Fetch` on an instance sleeps 0; every
call on a state with the delay flag set sleeps exactly the configured
interval; the flag is set by every call regardless of outcome, so the
call after any call sleeps the full interval. -/
theorem c9_rate_limit :
    (∀ (envR : ReleaseEnv) (envA : ArtifactEnv) (h : Github),
      h.delay = false → (Github.Fetch envR envA h).1.1 = 0)
    ∧ (∀ (envR : ReleaseEnv) (envA : ArtifactEnv) (h : Github),
      h.delay = true → (Github.Fetch envR envA h).1.1 = h.interval)
    ∧ (∀ (envR : ReleaseEnv) (envA : ArtifactEnv) (h : Github),
      (Github.Fetch envR envA h).2.delay = true)
    ∧ (∀ (envR envR2 : ReleaseEnv) (envA envA2 : ArtifactEnv) (h : Github),
      (Github.Fetch envR2 envA2 (Github.Fetch envR envA h).2).1.1 = h.interval) := by
  refine ⟨?_, ?_, ?_, ?_⟩
  · intro envR envA h hd
    by_cases ha : h.artifact
    · rcases hfa : fetchLatestArtifact envA h.matchFn h.latestRun with ⟨r, c2⟩
      simp [Github.Fetch, ha, hfa, hd]
    · rcases hfr : fetchLatestRelease envR h.matchFn h.latestRelease with ⟨r, c2⟩
      simp [Github.Fetch, ha, hfr, hd]
  · intro envR envA h hd
    by_cases ha : h.artifact
    · rcases hfa : fetchLatestArtifact envA h.matchFn h.latestRun with ⟨r, c2⟩
      simp [Github.Fetch, ha, hfa, hd]
    · rcases hfr : fetchLatestRelease envR h.matchFn h.latestRelease with ⟨r, c2⟩
      simp [Github.Fetch, ha, hfr, hd]
  · intro envR envA h
    by_cases ha : h.artifact
    · rcases hfa : fetchLatestArtifact envA h.matchFn h.latestRun with ⟨r, c2⟩
      simp [Github.Fetch, ha, hfa]
    · rcases hfr : fetchLatestRelease envR h.matchFn h.latestRelease with ⟨r, c2⟩
      simp [Github.Fetch, ha, hfr]
  · intro envR envR2 envA envA2 h
    by_cases ha : h.artifact
    · rcases hfa : fetchLatestArtifact envA h.matchFn h.latestRun with ⟨r, c2⟩
      rcases hfa2 : fetchLatestArtifact envA2 h.matchFn c2 with ⟨r2, c3⟩
      simp [Github.Fetch, ha, hfa, hfa2]
    · rcases hfr : fetchLatestRelease envR h.matchFn h.latestRelease with ⟨r, c2⟩
      rcases hfr2 : fetchLatestRelease envR2 h.matchFn c2 with ⟨r2, c3⟩
      simp [Github.Fetch, ha, hfr, hfr2]

/-- C9 witness: on a fresh post-Init state the first call sleeps 0 and the
second call sleeps the configured one-minute interval. -/
theorem c9_rate_limit_witness :
    (Github.Fetch exampleReleaseEnv runDeliveryEnv githubW).1.1 = 0
    ∧ (Github.Fetch exampleReleaseEnv runDeliveryEnv
        (Github.Fetch exampleReleaseEnv runDeliveryEnv githubW).2).1.1 = minuteNs :=
  ⟨c9_rate_limit.1 exampleReleaseEnv runDeliveryEnv githubW rfl,
   c9_rate_limit.2.2.2 exampleReleaseEnv exampleReleaseEnv runDeliveryEnv runDeliveryEnv githubW⟩


/-- C8: Init contract.  An empty user fails with "user required", an empty
repo with "repo required"; with both non-empty Init succeeds, preserving
user and repo, clamping the interval to the one-minute floor (and leaving
it alone when already at or above it), installing the OS+arch default
predicate exactly when none was supplied, and establishing a context. -/
theorem c8_init_contract :
    (∀ (goos goarch : String) (h : Github),
      h.user = "" → Github.Init goos goarch h = Except.error "user required")
    ∧ (∀ (goos goarch : String) (h : Github),
      h.user ≠ "" → h.repo = "" → Github.Init goos goarch h = Except.error "repo required")
    ∧ (∀ (goos goarch : String) (h : Github),
      h.user ≠ "" → h.repo ≠ "" →
      (∃ h2, Github.Init goos goarch h = Except.ok h2)
      ∧ ∀ h2, Github.Init goos goarch h = Except.ok h2 →
          h2.user = h.user ∧ h2.repo = h.repo
          ∧ h2.user ≠ "" ∧ h2.repo ≠ ""
          ∧ minuteNs ≤ h2.interval
          ∧ (minuteNs ≤ h.interval → h2.interval = h.interval)
          ∧ h2.matchNil = false
          ∧ (h.matchNil = true → h2.matchFn = defaultAsset goos goarch)
          ∧ (h.matchNil = false → h2.matchFn = h.matchFn)
          ∧ h2.hasContext = true) := by
  refine ⟨?_, ?_, ?_⟩
  · intro goos goarch h hu
    simp [Github.Init, hu]
  · intro goos goarch h hu hr
    simp [Github.Init, hu, hr]
  · intro goos goarch h hu hr
    constructor
    · exact ⟨_, by simp only [Github.Init]; rw [if_neg hu, if_neg hr]⟩
    · intro h2 heq
      simp only [Github.Init] at heq
      rw [if_neg hu, if_neg hr] at heq
      cases hm : h.matchNil
      · by_cases hi : h.interval < minuteNs
        · cases hc : h.hasContext
          · simp [hm, hi, hc] at heq
            subst heq
            exact ⟨rfl, rfl, hu, hr, le_refl _, fun hle => absurd hi (not_lt.mpr hle), rfl,
              fun hmf => absurd hmf (by simp [hm]), fun _ => rfl, rfl⟩
          · simp [hm, hi, hc] at heq
            subst heq
            exact ⟨rfl, rfl, hu, hr, le_refl _, fun hle => absurd hi (not_lt.mpr hle), rfl,
              fun hmf => absurd hmf (by simp [hm]), fun _ => rfl, rfl⟩
        · cases hc : h.hasContext
          · simp [hm, hi, hc] at heq
            subst heq
            exact ⟨rfl, rfl, hu, hr, not_lt.mp hi, fun _ => rfl, rfl,
              fun hmf => absurd hmf (by simp [hm]), fun _ => rfl, rfl⟩
          · simp only [hm, hi, hc, if_false, if_true, ite_true, ite_false,
              Bool.false_eq_true, Except.ok.injEq] at heq
            subst heq
            exact ⟨rfl, rfl, hu, hr, not_lt.mp hi, fun _ => rfl, hm,
              fun hmf => absurd hmf (by simp [hm]), fun _ => rfl, hc⟩
      · by_cases hi : h.interval < minuteNs
        · cases hc : h.hasContext
          · simp [hm, hi, hc] at heq
            subst heq
            exact ⟨rfl, rfl, hu, hr, le_refl _, fun hle => absurd hi (not_lt.mpr hle), rfl,
              fun _ => rfl, fun hmf => absurd hmf (by simp [hm]), rfl⟩
          · simp [hm, hi, hc] at heq
            subst heq
            exact ⟨rfl, rfl, hu, hr, le_refl _, fun hle => absurd hi (not_lt.mpr hle), rfl,
              fun _ => rfl, fun hmf => absurd hmf (by simp [hm]), rfl⟩
        · cases hc : h.hasContext
          · simp [hm, hi, hc] at heq
            subst heq
            exact ⟨rfl, rfl, hu, hr, not_lt.mp hi, fun _ => rfl, rfl,
              fun _ => rfl, fun hmf => absurd hmf (by simp [hm]), rfl⟩
          · simp [hm, hi, hc] at heq
            subst heq
            exact ⟨rfl, rfl, hu, hr, not_lt.mp hi, fun _ => rfl, rfl,
              fun _ => rfl, fun hmf => absurd hmf (by simp [hm]), rfl⟩

/-- C8 witness: the three Init outcomes at concrete configurations. -/
theorem c8_init_contract_witness :
    Github.Init "linux" "amd64" cfgNoUser = Except.error "user required"
    ∧ Github.Init "linux" "amd64" cfgNoRepo = Except.error "repo required"
    ∧ ∃ h2, Github.Init "linux" "amd64" cfgOk = Except.ok h2 :=
  ⟨c8_init_contract.1 "linux" "amd64" cfgNoUser rfl,
   c8_init_contract.2.1 "linux" "amd64" cfgNoRepo (by decide) rfl,
   (c8_init_contract.2.2 "linux" "amd64" cfgOk (by decide) (by decide)).1⟩


/-- C5: the NoNewItem outcome is distinguishable.  Classifying a result by
its two components alone yields `noNewItem` exactly when the dedup
comparison found the selected candidate already delivered - never on a
transient failure (whose messages all differ from the two fixed dedup
messages) and never on a delivery or the neutral result. -/
theorem c5_no_new_item_distinguishable :
    (∀ (env : ReleaseEnv) (m : String → Bool) (c : Int),
      classify (fetchLatestRelease env m c).1 = Outcome.noNewItem ↔ relDedupHit env m c)
    ∧ (∀ (env : ArtifactEnv) (m : String → Bool) (c : Int),
      classify (fetchLatestArtifact env m c).1 = Outcome.noNewItem ↔ artDedupHit env c)
    ∧ (∀ s : List Nat, classify (some s, none) = Outcome.delivered s)
    ∧ classify (none, none) = Outcome.neutral := by
  refine ⟨?_, ?_, fun s => rfl, rfl⟩
  · intro env m c
    cases hg : env.getLatestRelease with
    | error e =>
      have hres : fetchLatestRelease env m c
          = ((none, some ("failed to get last release: " ++ e)), c) := by
        simp [fetchLatestRelease, hg]
      have hcl : classify (fetchLatestRelease env m c).1 = Outcome.failure := by
        rw [hres]
        exact classify_append _ _ (by decide)
      rw [hcl]
      refine iff_of_false (by simp) ?_
      rintro ⟨rel, txt, a, hok, -, -⟩
      rw [hg] at hok
      exact Except.noConfusion hok
    | ok trip =>
      obtain ⟨rel, code, txt⟩ := trip
      by_cases hc : code = 200
      · subst hc
        cases hf : rel.assets.find? (fun x => m x.name) with
        | none =>
          have hres : fetchLatestRelease env m c = ((none, none), c) := by
            simp only [fetchLatestRelease, hg]
            rw [if_neg (by simp)]
            rw [releaseLoop_eq_find, hf]
            rfl
          rw [hres]
          refine iff_of_false (by simp [classify]) ?_
          rintro ⟨rel', txt', a, hok, hfind, -⟩
          rw [hg] at hok
          simp only [Except.ok.injEq, Prod.mk.injEq] at hok
          rw [← hok.1] at hfind
          rw [hf] at hfind
          exact Option.noConfusion hfind
        | some a =>
          by_cases he : c = a.updatedAt
          · have hres : fetchLatestRelease env m c = ((none, some "no new release"), c) := by
              simp only [fetchLatestRelease, hg]
              rw [if_neg (by simp)]
              rw [releaseLoop_eq_find, hf]
              simp [releaseDecide, he]
            rw [hres]
            refine iff_of_true ?_ ⟨rel, txt, a, hg, hf, he⟩
            show classify (((none, some "no new release") : FetchResult)) = Outcome.noNewItem
            decide
          · have hrhs : ¬ relDedupHit env m c := by
              rintro ⟨rel', txt', a', hok, hfind, heq⟩
              rw [hg] at hok
              simp only [Except.ok.injEq, Prod.mk.injEq] at hok
              rw [← hok.1] at hfind
              rw [hf] at hfind
              simp only [Option.some.injEq] at hfind
              rw [← hfind] at heq
              exact he heq
            cases hd : env.downloadReleaseAsset a.id with
            | error e =>
              have hres : fetchLatestRelease env m c
                  = ((none, some ("failed to download release asset: " ++ e)), c) := by
                simp only [fetchLatestRelease, hg]
                rw [if_neg (by simp)]
                rw [releaseLoop_eq_find, hf]
                simp [releaseDecide, he, hd]
              have hcl : classify (fetchLatestRelease env m c).1 = Outcome.failure := by
                rw [hres]
                exact classify_append _ _ (by decide)
              rw [hcl]
              exact iff_of_false (by simp) hrhs
            | ok body =>
              have hres : fetchLatestRelease env m c = ((some body, none), a.updatedAt) := by
                simp only [fetchLatestRelease, hg]
                rw [if_neg (by simp)]
                rw [releaseLoop_eq_find, hf]
                simp [releaseDecide, he, hd]
              rw [hres]
              exact iff_of_false (by simp [classify]) hrhs
      · have hres : fetchLatestRelease env m c
            = ((none, some ("failed to get last release: " ++ txt)), c) := by
          simp [fetchLatestRelease, hg, hc]
        have hcl : classify (fetchLatestRelease env m c).1 = Outcome.failure := by
          rw [hres]
          exact classify_append _ _ (by decide)
        rw [hcl]
        refine iff_of_false (by simp) ?_
        rintro ⟨rel', txt', a, hok, -, -⟩
        rw [hg] at hok
        simp only [Except.ok.injEq, Prod.mk.injEq] at hok
        exact hc hok.2.1
  · intro env m c
    cases hg : env.listWorkflowRuns artifactQuery with
    | error e =>
      have hres : fetchLatestArtifact env m c
          = ((none, some ("failed to get workflow runs: " ++ e)), c) := by
        simp [fetchLatestArtifact, hg]
      have hcl : classify (fetchLatestArtifact env m c).1 = Outcome.failure := by
        rw [hres]
        exact classify_append _ _ (by decide)
      rw [hcl]
      refine iff_of_false (by simp) ?_
      rintro ⟨run, rest, hok, -⟩
      rw [hg] at hok
      exact Except.noConfusion hok
    | ok runs =>
      cases runs with
      | nil =>
        have hres : fetchLatestArtifact env m c
            = ((none, some "no successful workflow runs"), c) := by
          simp [fetchLatestArtifact, hg]
        rw [hres]
        refine iff_of_false ?_ ?_
        · show ¬ classify (((none, some "no successful workflow runs") : FetchResult))
              = Outcome.noNewItem
          decide
        rintro ⟨run, rest, hok, -⟩
        rw [hg] at hok
        simp at hok
      | cons run rest =>
        by_cases hr : c = run.id
        · have hres : fetchLatestArtifact env m c = ((none, some "no new run"), c) := by
            simp only [fetchLatestArtifact, hg]
            rw [if_pos hr]
          rw [hres]
          refine iff_of_true ?_ ⟨run, rest, hg, hr⟩
          show classify (((none, some "no new run") : FetchResult)) = Outcome.noNewItem
          decide
        · have hrhs : ¬ artDedupHit env c := by
            rintro ⟨run', rest', hok, heq⟩
            rw [hg] at hok
            simp only [Except.ok.injEq, List.cons.injEq] at hok
            rw [← hok.1] at heq
            exact hr heq
          cases hla : env.listRunArtifacts run.id with
          | error e =>
            have hres : fetchLatestArtifact env m c
                = ((none, some ("failed to get workflow run artifacts: " ++ e)), c) := by
              simp only [fetchLatestArtifact, hg]
              rw [if_neg hr]
              simp [hla]
            have hcl : classify (fetchLatestArtifact env m c).1 = Outcome.failure := by
              rw [hres]
              exact classify_append _ _ (by decide)
            rw [hcl]
            exact iff_of_false (by simp) hrhs
          | ok arts =>
            by_cases he : arts.isEmpty
            · have hres : fetchLatestArtifact env m c
                  = ((none, some "no artifacts found"), c) := by
                simp only [fetchLatestArtifact, hg]
                rw [if_neg hr]
                simp [hla, he]
              rw [hres]
              refine iff_of_false ?_ hrhs
              show ¬ classify (((none, some "no artifacts found") : FetchResult))
                  = Outcome.noNewItem
              decide
            · cases hf : arts.find? (fun x => m x.name) with
              | none =>
                have hres : fetchLatestArtifact env m c = ((none, none), c) := by
                  simp only [fetchLatestArtifact, hg]
                  rw [if_neg hr]
                  simp only [hla]
                  rw [if_neg he]
                  rw [artifactLoop_eq_find, hf]
                  rfl
                rw [hres]
                exact iff_of_false (by simp [classify]) hrhs
              | some a =>
                cases hdl : env.downloadArtifact a.id 10 with
                | error e =>
                  have hres : fetchLatestArtifact env m c
                      = ((none, some ("failed to download artifact: " ++ e)), c) := by
                    simp only [fetchLatestArtifact, hg]
                    rw [if_neg hr]
                    simp only [hla]
                    rw [if_neg he]
                    rw [artifactLoop_eq_find, hf]
                    simp [artifactDecide, hdl]
                  have hcl : classify (fetchLatestArtifact env m c).1 = Outcome.failure := by
                    rw [hres]
                    exact classify_append _ _ (by decide)
                  rw [hcl]
                  exact iff_of_false (by simp) hrhs
                | ok url =>
                  cases hget : env.httpGet url with
                  | error e =>
                    have hres : fetchLatestArtifact env m c
                        = ((none, some ("failed to fetch artifact: " ++ e)), c) := by
                      simp only [fetchLatestArtifact, hg]
                      rw [if_neg hr]
                      simp only [hla]
                      rw [if_neg he]
                      rw [artifactLoop_eq_find, hf]
                      simp [artifactDecide, hdl, hget]
                    have hcl : classify (fetchLatestArtifact env m c).1 = Outcome.failure := by
                      rw [hres]
                      exact classify_append _ _ (by decide)
                    rw [hcl]
                    exact iff_of_false (by simp) hrhs
                  | ok body =>
                    have hres : fetchLatestArtifact env m c = ((some body, none), run.id) := by
                      simp only [fetchLatestArtifact, hg]
                      rw [if_neg hr]
                      simp only [hla]
                      rw [if_neg he]
                      rw [artifactLoop_eq_find, hf]
                      simp [artifactDecide, hdl, hget]
                    rw [hres]
                    exact iff_of_false (by simp [classify]) hrhs

end Fetcher
